import Mathlib

/-!
Shallow embedding of the extended-generation (NDS) SPU core of spu.cpp:
per-channel sample decoding, timer/reload sequencing, the mixing pipeline,
the producer/consumer buffer exchange and the register write functions.
Machine integers are modelled as Nat (unsigned) or Int (signed), with
explicit reductions mod 2^w wherever the C code truncates.  The external
memory collaborator is a byte map Nat → Nat.  The consumer's bounded poll
of the ready flag is resolved sequentially: the branch taken is determined
by the flag's value at the call, since no concurrent producer can change
it inside a sequential model.
-/

/-- Read one byte from the external memory collaborator. -/
def mread8 (mem : Nat → Nat) (a : Nat) : Nat := mem a % 2 ^ 8

/-- Little-endian 16-bit read, as performed by memory read of a half word. -/
def mread16 (mem : Nat → Nat) (a : Nat) : Nat :=
  mread8 mem a + 2 ^ 8 * mread8 mem (a + 1)

/-- Little-endian 32-bit read, as performed by memory read of a word. -/
def mread32 (mem : Nat → Nat) (a : Nat) : Nat :=
  mread8 mem a + 2 ^ 8 * mread8 mem (a + 1) + 2 ^ 16 * mread8 mem (a + 2) +
    2 ^ 24 * mread8 mem (a + 3)

/-- Reinterpret a byte as a signed int8_t value. -/
def sext8 (v : Nat) : Int := if v < 2 ^ 7 then (v : Int) else (v : Int) - 2 ^ 8

/-- Reinterpret a 16-bit word as a signed int16_t value. -/
def sext16 (v : Nat) : Int := if v < 2 ^ 15 then (v : Int) else (v : Int) - 2 ^ 16

/-- Arithmetic right shift on a signed value, the behaviour of the C
operator >> on int64_t. -/
def asr (x : Int) (n : Nat) : Int := Int.fdiv x (2 ^ n)

/-- Per-channel state: the channel's registers (soundCnt, soundSad, soundTmr,
soundPnt, soundLen) and its runtime state (soundCurrent, soundTimer, the
ADPCM decoder state, the duty counter used by channels 8..13 and the noise
register used by channels 14..15). -/
structure Channel where
  soundCnt : Nat := 0
  soundSad : Nat := 0
  soundTmr : Nat := 0
  soundPnt : Nat := 0
  soundLen : Nat := 0
  soundCurrent : Nat := 0
  soundTimer : Nat := 0
  adpcmValue : Int := 0
  adpcmLoopValue : Int := 0
  adpcmIndex : Int := 0
  adpcmLoopIndex : Int := 0
  adpcmToggle : Bool := false
  dutyCycle : Nat := 0
  noiseValue : Nat := 0
deriving DecidableEq

/-- Whole-engine state: the sixteen channels, the global registers and the
double-buffered frame exchange.  The C++ member std::atomic ready has no
initializer in the class; the model starts it at false. -/
structure Spu where
  chans : Fin 16 → Channel
  mainSoundCnt : Nat := 0
  soundBias : Nat := 0
  bufferIn : List Nat := []
  bufferOut : List Nat := []
  bufferSize : Nat := 0
  bufferPointer : Nat := 0
  ready : Bool := false

/-- ADPCM index adjustment table Spu::indexTable. -/
def Spu.indexTable : List Int := [-1, -1, -1, -1, 2, 4, 6, 8]

/-- ADPCM step table Spu::adpcmTable (89 entries, all nonnegative int16_t). -/
def Spu.adpcmTable : List Nat :=
  [0x0007, 0x0008, 0x0009, 0x000A, 0x000B, 0x000C, 0x000D, 0x000E, 0x0010, 0x0011, 0x0013, 0x0015,
   0x0017, 0x0019, 0x001C, 0x001F, 0x0022, 0x0025, 0x0029, 0x002D, 0x0032, 0x0037, 0x003C, 0x0042,
   0x0049, 0x0050, 0x0058, 0x0061, 0x006B, 0x0076, 0x0082, 0x008F, 0x009D, 0x00AD, 0x00BE, 0x00D1,
   0x00E6, 0x00FD, 0x0117, 0x0133, 0x0151, 0x0173, 0x0198, 0x01C1, 0x01EE, 0x0220, 0x0256, 0x0292,
   0x02D4, 0x031C, 0x036C, 0x03C3, 0x0424, 0x048E, 0x0502, 0x0583, 0x0610, 0x06AB, 0x0756, 0x0812,
   0x08E0, 0x09C3, 0x0ABD, 0x0BD0, 0x0CFF, 0x0E4C, 0x0FBA, 0x114C, 0x1307, 0x14EE, 0x1706, 0x1954,
   0x1BDC, 0x1EA5, 0x21B6, 0x2515, 0x28CA, 0x2CDF, 0x315B, 0x364B, 0x3BB9, 0x41B2, 0x4844, 0x4F7E,
   0x5771, 0x602F, 0x69CE, 0x7462, 0x7FFF]

/-- Magnitude of one ADPCM step (spu.cpp lines 190-194): the table entry
divided by 8, plus the entry divided by 4, 2 and 1, gated by nibble bits
0 to 2.  Computed in Nat since every operand of the C chain is nonnegative. -/
def Spu.adpcmDiff (tab d : Nat) : Nat :=
  let diff0 := tab / 8
  let diff1 := if d / 2 ^ 0 % 2 = 1 then diff0 + tab / 4 else diff0
  let diff2 := if d / 2 ^ 1 % 2 = 1 then diff1 + tab / 2 else diff1
  if d / 2 ^ 2 % 2 = 1 then diff2 + tab / 1 else diff2

/-- Predictor update (spu.cpp lines 196-206): add the magnitude when nibble
bit 3 is set, clamping at 0x7FFF, else subtract it, clamping at -0x7FFF. -/
def Spu.adpcmNewValue (v : Int) (d diff : Nat) : Int :=
  if d / 2 ^ 3 % 2 = 1 then
    let v1 := v + diff
    if v1 > 0x7FFF then 0x7FFF else v1
  else
    let v1 := v - diff
    if v1 < -0x7FFF then -0x7FFF else v1

/-- Step index update (spu.cpp lines 208-211): add indexTable[d & 7], then
clamp to [0, 88]. -/
def Spu.adpcmNewIndex (idx : Int) (d : Nat) : Int :=
  let idx0 := idx + Spu.indexTable.getD (d % 8) 0
  let idx1 := if idx0 < 0 then 0 else idx0
  if idx1 > 88 then 88 else idx1

/-- One ADPCM nibble decode, the case 2 body of the timer-overflow switch in
Spu::runSample (spu.cpp lines 184-224): pick the low or high nibble of the
current byte, update predictor and step index, toggle the nibble selector
(advancing the byte address after the high nibble), and snapshot the
loop-restore pair at the loop point. -/
def Spu.adpcmDecodeStep (mem : Nat → Nat) (c : Channel) : Channel :=
  let b := mread8 mem c.soundCurrent
  let d := if c.adpcmToggle then b / 2 ^ 4 else b % 2 ^ 4
  let tab := Spu.adpcmTable.getD c.adpcmIndex.toNat 0
  let v := Spu.adpcmNewValue c.adpcmValue d (Spu.adpcmDiff tab d)
  let idx := Spu.adpcmNewIndex c.adpcmIndex d
  let tog := ! c.adpcmToggle
  let cur := if tog then c.soundCurrent else (c.soundCurrent + 1) % 2 ^ 32
  let c1 : Channel :=
    { c with adpcmValue := v, adpcmIndex := idx, adpcmToggle := tog, soundCurrent := cur }
  if c1.soundCurrent = (c1.soundSad + c1.soundPnt * 4) % 2 ^ 32 ∧ c1.adpcmToggle = false then
    { c1 with adpcmLoopValue := c1.adpcmValue, adpcmLoopIndex := c1.adpcmIndex }
  else c1

/-- LFSR advance for a noise channel, the case 3 noise body of the
timer-overflow switch (spu.cpp lines 233-243): clear the saved carry bit 15,
then shift right, injecting 0x6000 and setting bit 15 when bit 0 was set. -/
def Spu.noiseStep (v : Nat) : Nat :=
  let v1 := v % 2 ^ 15
  if v1 % 2 = 1 then 2 ^ 15 ||| (v1 / 2 ^^^ 0x6000) else v1 / 2

/-- Format-specific state advance on a timer reload, the switch inside the
overflow loop of Spu::runSample (lines 175-246). -/
def Spu.reloadAdvance (mem : Nat → Nat) (i : Fin 16) (format : Nat) (c : Channel) : Channel :=
  if format = 0 ∨ format = 1 then
    { c with soundCurrent := (c.soundCurrent + 1 + format) % 2 ^ 32 }
  else if format = 2 then
    Spu.adpcmDecodeStep mem c
  else
    if 8 ≤ i.val ∧ i.val ≤ 13 then { c with dutyCycle := (c.dutyCycle + 1) % 8 }
    else if 14 ≤ i.val then { c with noiseValue := Spu.noiseStep c.noiseValue }
    else c

/-- End-of-data handling after a reload advance (spu.cpp lines 248-267):
when a PCM/ADPCM channel reaches soundSad + (soundPnt + soundLen) * 4 it
either rewinds to the loop point (loop field = 1, restoring the saved ADPCM
pair) or clears the enable bit 31 of soundCnt. -/
def Spu.checkEnd (format : Nat) (c : Channel) : Channel :=
  if format ≠ 3 ∧ c.soundCurrent = (c.soundSad + (c.soundPnt + c.soundLen) * 4) % 2 ^ 32 then
    if c.soundCnt / 2 ^ 27 % 4 = 1 then
      let c1 : Channel := { c with soundCurrent := (c.soundSad + c.soundPnt * 4) % 2 ^ 32 }
      if format = 2 then
        { c1 with adpcmValue := c1.adpcmLoopValue, adpcmIndex := c1.adpcmLoopIndex,
                  adpcmToggle := false }
      else c1
    else
      { c with soundCnt := c.soundCnt &&& 0x7FFFFFFF }
  else c

/-- Timer-overflow loop of Spu::runSample (lines 169-268).  Each iteration
adds the 16-bit reload value R to the 16-bit timer, advances the channel and
runs the end-of-data check, and repeats while the addition wrapped (new
timer < R).  The C while loop terminates because a wrapping addition of
R < 2^16 strictly decreases the timer, so it runs at most 2^16 iterations;
the fuel argument (always called with 2^16) therefore never runs out. -/
def Spu.reloadLoop (mem : Nat → Nat) (i : Fin 16) (format : Nat) :
    Nat → Nat → Nat → Channel → Nat × Channel
  | 0, _, t, c => (t, c)
  | fuel + 1, R, t, c =>
    let t2 := (t + R) % 2 ^ 16
    let c2 := Spu.checkEnd format (Spu.reloadAdvance mem i format c)
    if t2 < R then Spu.reloadLoop mem i format fuel R t2 c2 else (t2, c2)

/-- Volume divider stage (spu.cpp lines 270-274): divShift 3 is reinterpreted
as 4, then the sample is shifted left by 4 - divShift. -/
def Spu.applyDiv (data : Int) (sh : Nat) : Int :=
  let sh1 := if sh = 3 then sh + 1 else sh
  data * 2 ^ (4 - sh1)

/-- Volume multiplier stage (lines 276-280): factor 127 is reinterpreted as
128; the division is C truncating division. -/
def Spu.applyVol (data : Int) (f : Nat) : Int :=
  let f1 := if f = 127 then f + 1 else f
  Int.tdiv (data * 2 ^ 7 * (f1 : Int)) 128

/-- Left contribution of the panning stage (lines 282-286). -/
def Spu.panLeft (data : Int) (p : Nat) : Int :=
  let p1 := if p = 127 then p + 1 else p
  asr (Int.tdiv (data * 2 ^ 7 * (128 - (p1 : Int))) 128) 10

/-- Right contribution of the panning stage (lines 282-287). -/
def Spu.panRight (data : Int) (p : Nat) : Int :=
  let p1 := if p = 127 then p + 1 else p
  asr (Int.tdiv (data * 2 ^ 7 * (p1 : Int)) 128) 10

/-- Master volume stage (lines 290-295): factor 127 reinterpreted as 128,
then two truncating divisions by 128 and 64. -/
def Spu.applyMaster (x : Int) (mv : Nat) : Int :=
  let mv1 := if mv = 127 then mv + 1 else mv
  Int.tdiv (Int.tdiv (x * 2 ^ 13 * (mv1 : Int)) 128) 64

/-- Process one channel for one synthesis tick: read the raw sample, run the
timer (and any reload advances), and return the updated channel together
with its left/right accumulator contributions.  Disabled channels are
skipped entirely (spu.cpp lines 115-119). -/
def Spu.tickChannel (mem : Nat → Nat) (i : Fin 16) (c : Channel) : Channel × Int × Int :=
  if c.soundCnt.testBit 31 = false then (c, 0, 0) else
  let format := c.soundCnt / 2 ^ 29 % 4
  let data : Int :=
    if format = 0 then sext8 (mread8 mem c.soundCurrent) * 2 ^ 8
    else if format = 1 then sext16 (mread16 mem c.soundCurrent)
    else if format = 2 then c.adpcmValue
    else
      if 8 ≤ i.val ∧ i.val ≤ 13 then
        let duty := 7 - c.soundCnt / 2 ^ 24 % 8
        if c.dutyCycle < duty then -0x7FFF else 0x7FFF
      else if 14 ≤ i.val then
        if c.noiseValue.testBit 15 then -0x7FFF else 0x7FFF
      else 0
  let t1 := (c.soundTimer + 512) % 2 ^ 16
  let p := if t1 < 512 then Spu.reloadLoop mem i format (2 ^ 16) c.soundTmr t1 c else (t1, c)
  let c3 : Channel := { p.2 with soundTimer := p.1 }
  let data1 := Spu.applyDiv data (c3.soundCnt / 2 ^ 8 % 4)
  let data2 := Spu.applyVol data1 (c3.soundCnt % 2 ^ 7)
  let pan := c3.soundCnt / 2 ^ 16 % 2 ^ 7
  (c3, Spu.panLeft data2 pan, Spu.panRight data2 pan)

/-- Stereo accumulator sums over the sixteen channels for one tick. -/
def Spu.sampleLR (mem : Nat → Nat) (s : Spu) : Int × Int :=
  ((List.finRange 16).foldl (fun acc i => acc + (Spu.tickChannel mem i (s.chans i)).2.1) 0,
   (List.finRange 16).foldl (fun acc i => acc + (Spu.tickChannel mem i (s.chans i)).2.2) 0)

/-- Master volume, rounding, bias, clipping and conversion of the two
accumulated samples (spu.cpp lines 290-309). -/
def Spu.finalizeFrame (l r : Int) (mainCnt bias : Nat) : Int × Int :=
  let mv := mainCnt % 2 ^ 7
  let l1 := asr (Spu.applyMaster l mv) 21 + (bias : Int)
  let r1 := asr (Spu.applyMaster r mv) 21 + (bias : Int)
  let l2 := if l1 < 0 then 0 else if l1 > 0x3FF then 0x3FF else l1
  let r2 := if r1 < 0 then 0 else if r1 > 0x3FF then 0x3FF else r1
  ((l2 - 0x200) * 2 ^ 5, (r2 - 0x200) * 2 ^ 5)

/-- Interleaving of one stereo frame into a 32-bit buffer word (line 314):
the low 32 bits of the int64 value (right << 16) | (left & 0xFFFF). -/
def Spu.packFrame (l r : Int) : Nat :=
  (Int.emod r (2 ^ 16)).toNat * 2 ^ 16 + (Int.emod l (2 ^ 16)).toNat

/-- Frame that one call of Spu::runSample would produce from state s. -/
def Spu.frameAt (mem : Nat → Nat) (s : Spu) : Nat :=
  let lr := Spu.sampleLR mem s
  let f := Spu.finalizeFrame lr.1 lr.2 s.mainSoundCnt s.soundBias
  Spu.packFrame f.1 f.2

/-- One call of Spu::runSample: run all sixteen channels, mix, write the
frame into the in buffer and swap the buffers when it fills.  The optional
producer-side throttling wait only delays the swap in the concurrent
program, so the sequential model performs the swap directly. -/
def Spu.runSample (mem : Nat → Nat) (s : Spu) : Spu :=
  let s1 : Spu := { s with chans := fun i => (Spu.tickChannel mem i (s.chans i)).1 }
  if s.bufferSize = 0 then s1 else
  let s2 : Spu := { s1 with bufferIn := s1.bufferIn.set s.bufferPointer (Spu.frameAt mem s),
                            bufferPointer := s.bufferPointer + 1 }
  if s2.bufferPointer = s2.bufferSize then
    { s2 with bufferIn := s2.bufferOut, bufferOut := s2.bufferIn, ready := true,
              bufferPointer := 0 }
  else s2

/-- Consumer operation Spu::getSamples (spu.cpp lines 54-107).  A block-size
change reallocates both buffers (the C++ new leaves them uninitialized; the
model fills them with zeros) and resets the cursor.  The bounded poll of the
ready flag reduces, sequentially, to the value of the flag at the call: if
it is set the out buffer is copied verbatim, otherwise the timeout path
repeats the last frame of the out buffer.  Both paths clear ready. -/
def Spu.getSamples (count : Nat) (s : Spu) : List Nat × Spu :=
  let s1 : Spu :=
    if s.bufferSize ≠ count then
      { s with bufferIn := List.replicate count 0, bufferOut := List.replicate count 0,
               bufferSize := count, bufferPointer := 0 }
    else s
  let out :=
    if s1.ready then s1.bufferOut.take count
    else List.replicate count (s1.bufferOut.getD (count - 1) 0)
  (out, { s1 with ready := false })

/-- Register write Spu::writeSoundCnt (spu.cpp lines 347-384).  When the
stored enable bit 31 is clear and bit 31 of the raw value is set, the
channel is re-initialized according to the format field of the pre-write
control word; the masked register update happens afterwards. -/
def Spu.writeSoundCnt (mem : Nat → Nat) (ch : Fin 16) (mask value : Nat) (s : Spu) : Spu :=
  let c := s.chans ch
  let c1 : Channel :=
    if c.soundCnt.testBit 31 = false ∧ value.testBit 31 = true then
      let ca : Channel := { c with soundCurrent := c.soundSad, soundTimer := c.soundTmr }
      match c.soundCnt / 2 ^ 29 % 4 with
      | 2 =>
        let header : Nat := mread32 mem ca.soundSad
        let idx : Nat := header / 2 ^ 16 % 2 ^ 7
        { ca with adpcmValue := sext16 (header % 2 ^ 16),
                  adpcmIndex := if (idx : Int) > 88 then 88 else (idx : Int),
                  adpcmToggle := false,
                  soundCurrent := (ca.soundCurrent + 4) % 2 ^ 32 }
      | 3 =>
        if 8 ≤ ch.val ∧ ch.val ≤ 13 then { ca with dutyCycle := 0 }
        else if 14 ≤ ch.val then { ca with noiseValue := 0x7FFF }
        else ca
      | _ => ca
    else c
  let m := mask &&& 0xFF7F837F
  let c2 : Channel := { c1 with soundCnt := c1.soundCnt &&& (0xFFFFFFFF ^^^ m) ||| value &&& m }
  { s with chans := Function.update s.chans ch c2 }

/-- Register write Spu::writeSoundSad. -/
def Spu.writeSoundSad (ch : Fin 16) (mask value : Nat) (s : Spu) : Spu :=
  let m := mask &&& 0x07FFFFFC
  let c := s.chans ch
  let c4 : Channel := { c with soundSad := c.soundSad &&& (0xFFFFFFFF ^^^ m) ||| value &&& m }
  { s with chans := Function.update s.chans ch c4 }

/-- Register write Spu::writeSoundTmr (16-bit operands). -/
def Spu.writeSoundTmr (ch : Fin 16) (mask value : Nat) (s : Spu) : Spu :=
  let m := mask &&& 0xFFFF
  let c := s.chans ch
  let c4 : Channel := { c with soundTmr := c.soundTmr &&& (0xFFFF ^^^ m) ||| value &&& m }
  { s with chans := Function.update s.chans ch c4 }

/-- Register write Spu::writeSoundPnt (16-bit operands). -/
def Spu.writeSoundPnt (ch : Fin 16) (mask value : Nat) (s : Spu) : Spu :=
  let m := mask &&& 0xFFFF
  let c := s.chans ch
  let c4 : Channel := { c with soundPnt := c.soundPnt &&& (0xFFFF ^^^ m) ||| value &&& m }
  { s with chans := Function.update s.chans ch c4 }

/-- Register write Spu::writeSoundLen. -/
def Spu.writeSoundLen (ch : Fin 16) (mask value : Nat) (s : Spu) : Spu :=
  let m := mask &&& 0x003FFFFF
  let c := s.chans ch
  let c4 : Channel := { c with soundLen := c.soundLen &&& (0xFFFFFFFF ^^^ m) ||| value &&& m }
  { s with chans := Function.update s.chans ch c4 }

/-- Register write Spu::writeMainSoundCnt (16-bit operands). -/
def Spu.writeMainSoundCnt (mask value : Nat) (s : Spu) : Spu :=
  let m := mask &&& 0xBF7F
  { s with mainSoundCnt := s.mainSoundCnt &&& (0xFFFF ^^^ m) ||| value &&& m }

/-- Register write Spu::writeSoundBias (16-bit operands). -/
def Spu.writeSoundBias (mask value : Nat) (s : Spu) : Spu :=
  let m := mask &&& 0x03FF
  { s with soundBias := s.soundBias &&& (0xFFFF ^^^ m) ||| value &&& m }

/-- Engine state at construction: the in-class member initializers of spu.h
zero all channel and register state. -/
def Spu.construct : Spu := { chans := fun _ => {} }

/-- Operations of the engine interface that touch its state: one synthesis
tick, the register writes and the consumer call. -/
inductive SpuOp where
  | tick (mem : Nat → Nat)
  | wSoundCnt (mem : Nat → Nat) (ch : Fin 16) (mask value : Nat)
  | wSoundSad (ch : Fin 16) (mask value : Nat)
  | wSoundTmr (ch : Fin 16) (mask value : Nat)
  | wSoundPnt (ch : Fin 16) (mask value : Nat)
  | wSoundLen (ch : Fin 16) (mask value : Nat)
  | wMainSoundCnt (mask value : Nat)
  | wSoundBias (mask value : Nat)
  | consume (count : Nat)

/-- Effect of one interface operation on the engine state. -/
def SpuOp.apply : SpuOp → Spu → Spu
  | .tick mem, s => Spu.runSample mem s
  | .wSoundCnt mem ch mask value, s => Spu.writeSoundCnt mem ch mask value s
  | .wSoundSad ch mask value, s => Spu.writeSoundSad ch mask value s
  | .wSoundTmr ch mask value, s => Spu.writeSoundTmr ch mask value s
  | .wSoundPnt ch mask value, s => Spu.writeSoundPnt ch mask value s
  | .wSoundLen ch mask value, s => Spu.writeSoundLen ch mask value s
  | .wMainSoundCnt mask value, s => Spu.writeMainSoundCnt mask value s
  | .wSoundBias mask value, s => Spu.writeSoundBias mask value s
  | .consume count, s => (Spu.getSamples count s).2

/-- All-zero external memory, used to instantiate concrete scenarios. -/
def memZ : Nat → Nat := fun _ => 0

/-- Invariant on one channel's ADPCM decoder state: the step index and its
loop snapshot lie in [0, 88]; the predictor and its loop snapshot lie in
[-32768, 32767]. -/
def ChanInv (c : Channel) : Prop :=
  -32768 ≤ c.adpcmValue ∧ c.adpcmValue ≤ 32767 ∧
  0 ≤ c.adpcmIndex ∧ c.adpcmIndex ≤ 88 ∧
  -32768 ≤ c.adpcmLoopValue ∧ c.adpcmLoopValue ≤ 32767 ∧
  0 ≤ c.adpcmLoopIndex ∧ c.adpcmLoopIndex ≤ 88

/-- Invariant over the whole engine: every channel satisfies ChanInv. -/
def SpuInv (s : Spu) : Prop := ∀ i : Fin 16, ChanInv (s.chans i)

instance (c : Channel) : Decidable (ChanInv c) := by unfold ChanInv; infer_instance

instance (s : Spu) : Decidable (SpuInv s) := by unfold SpuInv; infer_instance

/-- C5: in the mixing pipeline, a volume factor of 127 behaves identically
to 128 in the multiplier, pan and master-volume stages, and a divider
selector of 3 behaves as divider value 4, for every input sample. -/
theorem mixing_factor_127_eq_128 (data x : Int) :
    Spu.applyDiv data 3 = Spu.applyDiv data 4 ∧
    Spu.applyVol data 127 = Spu.applyVol data 128 ∧
    Spu.panLeft data 127 = Spu.panLeft data 128 ∧
    Spu.panRight data 127 = Spu.panRight data 128 ∧
    Spu.applyMaster x 127 = Spu.applyMaster x 128 := by
  refine ⟨?_, ?_, ?_, ?_, ?_⟩ <;>
    simp [Spu.applyDiv, Spu.applyVol, Spu.panLeft, Spu.panRight, Spu.applyMaster]

/-- C7: each of the left and right samples produced by one tick is clipped
to [0, 0x3FF] after bias addition and then converted by subtracting 0x200
and shifting left by 5, so both components of the finalized frame lie in
[-0x4000, 0x3FE0], for every accumulator input and register state. -/
theorem finalize_output_range (l r : Int) (mc bias : Nat) :
    -0x4000 ≤ (Spu.finalizeFrame l r mc bias).1 ∧
    (Spu.finalizeFrame l r mc bias).1 ≤ 0x3FE0 ∧
    -0x4000 ≤ (Spu.finalizeFrame l r mc bias).2 ∧
    (Spu.finalizeFrame l r mc bias).2 ≤ 0x3FE0 := by
  simp only [Spu.finalizeFrame]
  norm_num
  split_ifs <;> omega

/-- C8: when getSamples runs into its timeout (the ready flag is down), it
returns the last frame of the out buffer repeated count times, leaves the
out buffer untouched, and clears the ready flag exactly as the success path
does. -/
theorem getSamples_timeout_path (count : Nat) (s : Spu)
    (h1 : s.ready = false) (h2 : s.bufferSize = count) :
    (Spu.getSamples count s).1 = List.replicate count (s.bufferOut.getD (count - 1) 0) ∧
    (Spu.getSamples count s).2.bufferOut = s.bufferOut ∧
    (Spu.getSamples count s).2.ready = false ∧
    ∀ s2 : Spu, (Spu.getSamples count s2).2.ready = false := by
  refine ⟨?_, ?_, ?_, ?_⟩ <;> simp [Spu.getSamples, h1, h2]

/-- Witness for getSamples_timeout_path at a concrete two-frame state. -/
theorem getSamples_timeout_path_witness :
    (Spu.getSamples 2 { chans := fun _ => {}, bufferOut := [5, 7], bufferSize := 2 }).1 =
      List.replicate 2 (([5, 7] : List Nat).getD 1 0) ∧
    (Spu.getSamples 2 { chans := fun _ => {}, bufferOut := [5, 7], bufferSize := 2 }).2.bufferOut
      = [5, 7] ∧
    (Spu.getSamples 2 { chans := fun _ => {}, bufferOut := [5, 7], bufferSize := 2 }).2.ready
      = false ∧
    ∀ s2 : Spu, (Spu.getSamples 2 s2).2.ready = false :=
  getSamples_timeout_path 2 { chans := fun _ => {}, bufferOut := [5, 7], bufferSize := 2 }
    rfl rfl

/-- C9: a PCM/ADPCM channel in one-shot loop mode whose current address has
reached soundSad + (soundPnt + soundLen) * 4 during a reload gets its enable
bit 31 cleared by the end-of-data check, and a channel whose enable bit is
clear passes through tickChannel unchanged with zero left/right
contribution. -/
theorem oneshot_end_disables (mem : Nat → Nat) (i : Fin 16) (format : Nat) (c cd : Channel)
    (h1 : format ≠ 3)
    (h2 : c.soundCurrent = (c.soundSad + (c.soundPnt + c.soundLen) * 4) % 2 ^ 32)
    (h3 : c.soundCnt / 2 ^ 27 % 4 = 2)
    (h4 : cd.soundCnt.testBit 31 = false) :
    (Spu.checkEnd format c).soundCnt.testBit 31 = false ∧
    Spu.tickChannel mem i cd = (cd, 0, 0) := by
  constructor
  · have hc : format ≠ 3 ∧
        c.soundCurrent = (c.soundSad + (c.soundPnt + c.soundLen) * 4) % 2 ^ 32 := ⟨h1, h2⟩
    simp only [Spu.checkEnd, if_pos hc]
    rw [if_neg (by omega : ¬ c.soundCnt / 2 ^ 27 % 4 = 1)]
    show (c.soundCnt &&& 0x7FFFFFFF).testBit 31 = false
    rw [Nat.testBit_land]
    simp
    intro _
    decide
  · simp [Spu.tickChannel, h4]

lemma maskedWrite_testBit31 (old value mask : Nat) (h1 : old.testBit 31 = false)
    (hm : mask.testBit 31 = false) :
    (old &&& (0xFFFFFFFF ^^^ (mask &&& 0xFF7F837F)) |||
      value &&& (mask &&& 0xFF7F837F)).testBit 31 = false := by
  rw [Nat.testBit_lor, Nat.testBit_land, Nat.testBit_land, Nat.testBit_land, h1, hm]
  simp

/-- C6: writing a channel control register with the enable bit going 0 to 1,
on a channel whose stored format is ADPCM and whose four source bytes are
34 12 00 00, seeds predictor 0x1234 and step index 0, sets the current
address to soundSad + 4, resets the nibble selector, and resets the timer
accumulator to the reload period. -/
theorem writeSoundCnt_adpcm_enable (mem : Nat → Nat) (ch : Fin 16) (mask value : Nat) (s : Spu)
    (h1 : (s.chans ch).soundCnt.testBit 31 = false)
    (h2 : value.testBit 31 = true)
    (h3 : (s.chans ch).soundCnt / 2 ^ 29 % 4 = 2)
    (h4 : mread8 mem (s.chans ch).soundSad = 0x34)
    (h5 : mread8 mem ((s.chans ch).soundSad + 1) = 0x12)
    (h6 : mread8 mem ((s.chans ch).soundSad + 2) = 0)
    (h7 : mread8 mem ((s.chans ch).soundSad + 3) = 0)
    (h8 : (s.chans ch).soundSad + 4 < 2 ^ 32) :
    ((Spu.writeSoundCnt mem ch mask value s).chans ch).adpcmValue = 0x1234 ∧
    ((Spu.writeSoundCnt mem ch mask value s).chans ch).adpcmIndex = 0 ∧
    ((Spu.writeSoundCnt mem ch mask value s).chans ch).soundCurrent
      = (s.chans ch).soundSad + 4 ∧
    ((Spu.writeSoundCnt mem ch mask value s).chans ch).adpcmToggle = false ∧
    ((Spu.writeSoundCnt mem ch mask value s).chans ch).soundTimer = (s.chans ch).soundTmr := by
  simp only [Spu.writeSoundCnt, if_pos (And.intro h1 h2), h3, Function.update_same]
  simp only [mread32, h4, h5, h6, h7]
  norm_num [sext16, Nat.mod_eq_of_lt h8]
  omega

/-- C10: the re-initialization in writeSoundCnt fires exactly when the
stored enable bit is 0 and bit 31 of the raw value is 1, regardless of the
mask: the timer is reset to the reload period, the read pointer and ADPCM
seeding follow the format field of the pre-write control word (a non-ADPCM
old format leaves the predictor untouched even if the written value selects
ADPCM), and a write whose mask excludes bit 31 leaves the stored enable
flag at 0. -/
theorem writeSoundCnt_reinit_uses_old_format (mem : Nat → Nat) (ch : Fin 16)
    (mask value : Nat) (s : Spu)
    (h1 : (s.chans ch).soundCnt.testBit 31 = false)
    (h2 : value.testBit 31 = true) :
    ((Spu.writeSoundCnt mem ch mask value s).chans ch).soundTimer = (s.chans ch).soundTmr ∧
    ((s.chans ch).soundCnt / 2 ^ 29 % 4 ≠ 2 →
      ((Spu.writeSoundCnt mem ch mask value s).chans ch).soundCurrent = (s.chans ch).soundSad ∧
      ((Spu.writeSoundCnt mem ch mask value s).chans ch).adpcmValue
        = (s.chans ch).adpcmValue) ∧
    ((s.chans ch).soundCnt / 2 ^ 29 % 4 = 2 →
      ((Spu.writeSoundCnt mem ch mask value s).chans ch).soundCurrent
        = ((s.chans ch).soundSad + 4) % 2 ^ 32 ∧
      ((Spu.writeSoundCnt mem ch mask value s).chans ch).adpcmValue
        = sext16 (mread32 mem (s.chans ch).soundSad % 2 ^ 16)) ∧
    (mask.testBit 31 = false →
      ((Spu.writeSoundCnt mem ch mask value s).chans ch).soundCnt.testBit 31 = false) := by
  have hf : (s.chans ch).soundCnt / 2 ^ 29 % 4 = 0 ∨ (s.chans ch).soundCnt / 2 ^ 29 % 4 = 1 ∨
      (s.chans ch).soundCnt / 2 ^ 29 % 4 = 2 ∨ (s.chans ch).soundCnt / 2 ^ 29 % 4 = 3 := by
    omega
  have hA : ((Spu.writeSoundCnt mem ch mask value s).chans ch).soundTimer
      = (s.chans ch).soundTmr := by
    rcases hf with hf | hf | hf | hf <;>
      simp only [Spu.writeSoundCnt, if_pos (And.intro h1 h2), hf, Function.update_same] <;>
      split_ifs <;> rfl
  have hB : (s.chans ch).soundCnt / 2 ^ 29 % 4 ≠ 2 →
      ((Spu.writeSoundCnt mem ch mask value s).chans ch).soundCurrent = (s.chans ch).soundSad ∧
      ((Spu.writeSoundCnt mem ch mask value s).chans ch).adpcmValue
        = (s.chans ch).adpcmValue := by
    intro h
    rcases hf with hf | hf | hf | hf
    · simp only [Spu.writeSoundCnt, if_pos (And.intro h1 h2), hf, Function.update_same]
      constructor <;> first | rfl | trivial | (split_ifs <;> rfl)
    · simp only [Spu.writeSoundCnt, if_pos (And.intro h1 h2), hf, Function.update_same]
      constructor <;> first | rfl | trivial | (split_ifs <;> rfl)
    · exact absurd hf h
    · simp only [Spu.writeSoundCnt, if_pos (And.intro h1 h2), hf, Function.update_same]
      constructor <;> first | rfl | trivial | (split_ifs <;> rfl)
  have hC : (s.chans ch).soundCnt / 2 ^ 29 % 4 = 2 →
      ((Spu.writeSoundCnt mem ch mask value s).chans ch).soundCurrent
        = ((s.chans ch).soundSad + 4) % 2 ^ 32 ∧
      ((Spu.writeSoundCnt mem ch mask value s).chans ch).adpcmValue
        = sext16 (mread32 mem (s.chans ch).soundSad % 2 ^ 16) := by
    intro h
    simp only [Spu.writeSoundCnt, if_pos (And.intro h1 h2), h, Function.update_same]
    constructor <;> first | rfl | trivial
  have hD : mask.testBit 31 = false →
      ((Spu.writeSoundCnt mem ch mask value s).chans ch).soundCnt.testBit 31 = false := by
    intro hm
    rcases hf with hf | hf | hf | hf <;>
      simp only [Spu.writeSoundCnt, if_pos (And.intro h1 h2), hf, Function.update_same] <;>
      (try split_ifs) <;>
      exact maskedWrite_testBit31 _ _ _ h1 hm
  exact ⟨hA, hB, hC, hD⟩


/-- Concrete channel used to instantiate the C6 register scenario. -/
def chA : Channel := { soundCnt := 0x40000000, soundSad := 0x100, soundTmr := 0xABC }

/-- Engine state holding chA in channel 0. -/
def sA : Spu := { chans := fun i => if i.val = 0 then chA else {} }

/-- Memory holding the ADPCM header bytes 34 12 00 00 at address 0x100. -/
def memA : Nat → Nat := fun a => if a = 0x100 then 0x34 else if a = 0x101 then 0x12 else 0

/-- Witness for writeSoundCnt_adpcm_enable at the concrete scenario state. -/
theorem writeSoundCnt_adpcm_enable_witness :
    ((Spu.writeSoundCnt memA 0 0xFFFFFFFF 0xC0000000 sA).chans 0).adpcmValue = 0x1234 ∧
    ((Spu.writeSoundCnt memA 0 0xFFFFFFFF 0xC0000000 sA).chans 0).adpcmIndex = 0 ∧
    ((Spu.writeSoundCnt memA 0 0xFFFFFFFF 0xC0000000 sA).chans 0).soundCurrent
      = (sA.chans 0).soundSad + 4 ∧
    ((Spu.writeSoundCnt memA 0 0xFFFFFFFF 0xC0000000 sA).chans 0).adpcmToggle = false ∧
    ((Spu.writeSoundCnt memA 0 0xFFFFFFFF 0xC0000000 sA).chans 0).soundTimer
      = (sA.chans 0).soundTmr :=
  writeSoundCnt_adpcm_enable memA 0 0xFFFFFFFF 0xC0000000 sA (by decide) (by decide)
    (by decide) (by decide) (by decide) (by decide) (by decide) (by decide)

/-- Channel at its one-shot end address used to instantiate C9. -/
def chEnd : Channel := { soundCnt := 0x90000000, soundLen := 1, soundCurrent := 4 }

/-- Witness for oneshot_end_disables at a concrete channel. -/
theorem oneshot_end_disables_witness :
    (Spu.checkEnd 0 chEnd).soundCnt.testBit 31 = false ∧
    Spu.tickChannel memZ 0 {} = ({}, 0, 0) :=
  oneshot_end_disables memZ 0 0 chEnd {} (by decide) (by decide) (by decide) (by decide)

/-- Engine state for the C10 witness: channel 0 disabled with format PCM8. -/
def sB : Spu :=
  { chans := fun i =>
      if i.val = 0 then { soundCnt := 0, soundSad := 0x40, soundTmr := 0x123, adpcmValue := 77 }
      else {} }

/-- Witness for writeSoundCnt_reinit_uses_old_format: a write with mask 0
and value bit 31 set still re-initializes channel 0 per its old format. -/
theorem writeSoundCnt_reinit_witness :
    ((Spu.writeSoundCnt memZ 0 0 0xC0000000 sB).chans 0).soundTimer = (sB.chans 0).soundTmr ∧
    ((sB.chans 0).soundCnt / 2 ^ 29 % 4 ≠ 2 →
      ((Spu.writeSoundCnt memZ 0 0 0xC0000000 sB).chans 0).soundCurrent
        = (sB.chans 0).soundSad ∧
      ((Spu.writeSoundCnt memZ 0 0 0xC0000000 sB).chans 0).adpcmValue
        = (sB.chans 0).adpcmValue) ∧
    ((sB.chans 0).soundCnt / 2 ^ 29 % 4 = 2 →
      ((Spu.writeSoundCnt memZ 0 0 0xC0000000 sB).chans 0).soundCurrent
        = ((sB.chans 0).soundSad + 4) % 2 ^ 32 ∧
      ((Spu.writeSoundCnt memZ 0 0 0xC0000000 sB).chans 0).adpcmValue
        = sext16 (mread32 memZ (sB.chans 0).soundSad % 2 ^ 16)) ∧
    ((0xFFFFFFFF : Nat).testBit 31 = false → True) ∧
    ((0 : Nat).testBit 31 = false →
      ((Spu.writeSoundCnt memZ 0 0 0xC0000000 sB).chans 0).soundCnt.testBit 31 = false) := by
  have h := writeSoundCnt_reinit_uses_old_format memZ 0 0 0xC0000000 sB (by decide) (by decide)
  exact ⟨h.1, h.2.1, h.2.2.1, fun _ => trivial, h.2.2.2⟩

lemma sext16_bounds (v : Nat) (h : v < 2 ^ 16) : -32768 ≤ sext16 v ∧ sext16 v ≤ 32767 := by
  simp only [sext16]
  split_ifs <;> omega

lemma adpcmNewValue_bounds (v : Int) (d diff : Nat) (h1 : -32768 ≤ v) (h2 : v ≤ 32767) :
    -32768 ≤ Spu.adpcmNewValue v d diff ∧ Spu.adpcmNewValue v d diff ≤ 32767 := by
  simp only [Spu.adpcmNewValue]
  split_ifs <;> omega

lemma adpcmNewIndex_bounds (idx : Int) (d : Nat) :
    0 ≤ Spu.adpcmNewIndex idx d ∧ Spu.adpcmNewIndex idx d ≤ 88 := by
  simp only [Spu.adpcmNewIndex]
  split_ifs <;> omega

lemma chanInv_adpcmDecodeStep (mem : Nat → Nat) (c : Channel) (h : ChanInv c) :
    ChanInv (Spu.adpcmDecodeStep mem c) := by
  obtain ⟨h1, h2, h3, h4, h5, h6, h7, h8⟩ := h
  simp only [Spu.adpcmDecodeStep]
  split_ifs <;>
    first
      | exact ⟨(adpcmNewValue_bounds _ _ _ h1 h2).1, (adpcmNewValue_bounds _ _ _ h1 h2).2,
          (adpcmNewIndex_bounds _ _).1, (adpcmNewIndex_bounds _ _).2,
          (adpcmNewValue_bounds _ _ _ h1 h2).1, (adpcmNewValue_bounds _ _ _ h1 h2).2,
          (adpcmNewIndex_bounds _ _).1, (adpcmNewIndex_bounds _ _).2⟩
      | exact ⟨(adpcmNewValue_bounds _ _ _ h1 h2).1, (adpcmNewValue_bounds _ _ _ h1 h2).2,
          (adpcmNewIndex_bounds _ _).1, (adpcmNewIndex_bounds _ _).2, h5, h6, h7, h8⟩

lemma chanInv_reloadAdvance (mem : Nat → Nat) (i : Fin 16) (format : Nat) (c : Channel)
    (h : ChanInv c) : ChanInv (Spu.reloadAdvance mem i format c) := by
  simp only [Spu.reloadAdvance]
  split_ifs
  · exact h
  · exact chanInv_adpcmDecodeStep mem c h
  · exact h
  · exact h
  · exact h

lemma chanInv_checkEnd (format : Nat) (c : Channel) (h : ChanInv c) :
    ChanInv (Spu.checkEnd format c) := by
  obtain ⟨h1, h2, h3, h4, h5, h6, h7, h8⟩ := h
  simp only [Spu.checkEnd]
  split_ifs <;> exact ⟨by assumption, by assumption, by assumption, by assumption,
    by assumption, by assumption, by assumption, by assumption⟩

lemma chanInv_reloadLoop (mem : Nat → Nat) (i : Fin 16) (format : Nat) :
    ∀ (fuel R t : Nat) (c : Channel), ChanInv c →
      ChanInv (Spu.reloadLoop mem i format fuel R t c).2 := by
  intro fuel
  induction fuel with
  | zero => intro R t c h; exact h
  | succ n ih =>
    intro R t c h
    simp only [Spu.reloadLoop]
    split_ifs
    · exact ih R _ _ (chanInv_checkEnd format _ (chanInv_reloadAdvance mem i format c h))
    · exact chanInv_checkEnd format _ (chanInv_reloadAdvance mem i format c h)

set_option maxRecDepth 100000 in
set_option maxHeartbeats 1000000 in
lemma chanInv_tickChannel (mem : Nat → Nat) (i : Fin 16) (c : Channel) (h : ChanInv c) :
    ChanInv (Spu.tickChannel mem i c).1 := by
  unfold Spu.tickChannel
  by_cases hb : c.soundCnt.testBit 31 = false
  · rw [if_pos hb]
    exact h
  · rw [if_neg hb]
    dsimp only
    by_cases ht : (c.soundTimer + 512) % 2 ^ 16 < 512
    · rw [if_pos ht]
      exact chanInv_reloadLoop mem i _ _ _ _ c h
    · rw [if_neg ht]
      exact h

lemma spuInv_runSample (mem : Nat → Nat) (s : Spu) (h : SpuInv s) :
    SpuInv (Spu.runSample mem s) := by
  intro i
  have hc : ChanInv ((fun j => (Spu.tickChannel mem j (s.chans j)).1) i) :=
    chanInv_tickChannel mem i (s.chans i) (h i)
  unfold Spu.runSample
  dsimp only
  split
  · exact hc
  split
  · exact hc
  · exact hc

lemma spuInv_getSamples (count : Nat) (s : Spu) (h : SpuInv s) :
    SpuInv (Spu.getSamples count s).2 := by
  intro i
  unfold Spu.getSamples
  dsimp only
  split
  · exact h i
  · exact h i

lemma spuInv_writeSoundCnt (mem : Nat → Nat) (ch : Fin 16) (mask value : Nat) (s : Spu)
    (h : SpuInv s) : SpuInv (Spu.writeSoundCnt mem ch mask value s) := by
  intro i
  unfold Spu.writeSoundCnt
  dsimp only
  rcases eq_or_ne i ch with rfl | hne
  · rw [Function.update_same]
    obtain ⟨h1, h2, h3, h4, h5, h6, h7, h8⟩ := h i
    by_cases hcond : (s.chans i).soundCnt.testBit 31 = false ∧ value.testBit 31 = true
    · rw [if_pos hcond]
      split
      · have hb := sext16_bounds (mread32 mem (s.chans i).soundSad % 2 ^ 16)
          (Nat.mod_lt _ (by norm_num))
        refine ⟨hb.1, hb.2, ?_, ?_, h5, h6, h7, h8⟩ <;> dsimp only <;> split_ifs <;> omega
      · split_ifs <;> exact ⟨h1, h2, h3, h4, h5, h6, h7, h8⟩
      · exact ⟨h1, h2, h3, h4, h5, h6, h7, h8⟩
    · rw [if_neg hcond]
      exact ⟨h1, h2, h3, h4, h5, h6, h7, h8⟩
  · rw [Function.update_noteq hne]
    exact h i

lemma spuInv_writeSoundSad (ch : Fin 16) (mask value : Nat) (s : Spu) (h : SpuInv s) :
    SpuInv (Spu.writeSoundSad ch mask value s) := by
  intro i
  unfold Spu.writeSoundSad
  dsimp only
  rcases eq_or_ne i ch with rfl | hne
  · rw [Function.update_same]; exact h i
  · rw [Function.update_noteq hne]; exact h i

lemma spuInv_writeSoundTmr (ch : Fin 16) (mask value : Nat) (s : Spu) (h : SpuInv s) :
    SpuInv (Spu.writeSoundTmr ch mask value s) := by
  intro i
  unfold Spu.writeSoundTmr
  dsimp only
  rcases eq_or_ne i ch with rfl | hne
  · rw [Function.update_same]; exact h i
  · rw [Function.update_noteq hne]; exact h i

lemma spuInv_writeSoundPnt (ch : Fin 16) (mask value : Nat) (s : Spu) (h : SpuInv s) :
    SpuInv (Spu.writeSoundPnt ch mask value s) := by
  intro i
  unfold Spu.writeSoundPnt
  dsimp only
  rcases eq_or_ne i ch with rfl | hne
  · rw [Function.update_same]; exact h i
  · rw [Function.update_noteq hne]; exact h i

lemma spuInv_writeSoundLen (ch : Fin 16) (mask value : Nat) (s : Spu) (h : SpuInv s) :
    SpuInv (Spu.writeSoundLen ch mask value s) := by
  intro i
  unfold Spu.writeSoundLen
  dsimp only
  rcases eq_or_ne i ch with rfl | hne
  · rw [Function.update_same]; exact h i
  · rw [Function.update_noteq hne]; exact h i

/-- C1 (amended): every engine operation preserves the ADPCM decoder
invariant: for each channel, the step index and its loop snapshot stay in
[0, 88], and the predictor and its loop snapshot stay in [-32768, 32767].
The lower predictor bound is -32768, not -32767 as the claim stated: the
header seed (int16_t)header can produce -32768. -/
theorem adpcm_state_invariant (op : SpuOp) (s : Spu) (h : SpuInv s) :
    SpuInv (SpuOp.apply op s) := by
  cases op with
  | tick mem => exact spuInv_runSample mem s h
  | wSoundCnt mem ch mask value => exact spuInv_writeSoundCnt mem ch mask value s h
  | wSoundSad ch mask value => exact spuInv_writeSoundSad ch mask value s h
  | wSoundTmr ch mask value => exact spuInv_writeSoundTmr ch mask value s h
  | wSoundPnt ch mask value => exact spuInv_writeSoundPnt ch mask value s h
  | wSoundLen ch mask value => exact spuInv_writeSoundLen ch mask value s h
  | wMainSoundCnt mask value => exact fun i => h i
  | wSoundBias mask value => exact fun i => h i
  | consume count => exact spuInv_getSamples count s h

/-- Witness for adpcm_state_invariant: one tick from the construction
state. -/
theorem adpcm_state_invariant_witness :
    SpuInv (SpuOp.apply (SpuOp.tick memZ) Spu.construct) :=
  adpcm_state_invariant (SpuOp.tick memZ) Spu.construct (by decide)

/-- Memory whose four bytes at address 0 form the ADPCM header 0x00008000,
whose low half word is the most negative int16_t value. -/
def memH : Nat → Nat := fun a => if a = 1 then 0x80 else 0

/-- Counterexample to C1 as stated: two register writes from the
construction state (one selecting the ADPCM format, one setting the enable
bit so the header at soundSad = 0 is read) leave the channel predictor at
-32768, outside the claimed range [-32767, 32767]. -/
theorem adpcm_predictor_min_counterexample :
    ((Spu.writeSoundCnt memH 0 0xFFFFFFFF 0xC0000000
        (Spu.writeSoundCnt memH 0 0xFFFFFFFF 0x40000000 Spu.construct)).chans 0).adpcmValue
      = -32768 ∧
    ¬ (-32767 ≤ ((Spu.writeSoundCnt memH 0 0xFFFFFFFF 0xC0000000
        (Spu.writeSoundCnt memH 0 0xFFFFFFFF 0x40000000 Spu.construct)).chans 0).adpcmValue) := by
  decide

/-- Channel in the C2 reload scenario: enabled, PCM8 format, reload period
0xFFFF, timer at its reload value, reading from address n with a data
length large enough that the end of data is never reached. -/
def pcm8Chan (n : Nat) : Channel :=
  { soundCnt := 0x80000000, soundTmr := 0xFFFF, soundLen := 0x3FFFFF,
    soundCurrent := n, soundTimer := 0xFFFF }

/-- Engine state holding pcm8Chan n in channel 0 and no output buffer. -/
def pcm8State (n : Nat) : Spu := { chans := fun i => if i.val = 0 then pcm8Chan n else {} }

lemma step_pcm8 (mem : Nat → Nat) (i : Fin 16) (n : Nat) (hn : n + 1 < 0xFFFFFC) :
    Spu.checkEnd 0 (Spu.reloadAdvance mem i 0 (pcm8Chan n)) = pcm8Chan (n + 1) := by
  simp only [Spu.reloadAdvance, Spu.checkEnd, pcm8Chan]
  norm_num
  rw [Nat.mod_eq_of_lt (by omega), if_neg (by omega)]

lemma reloadLoop_pcm8 (mem : Nat → Nat) (i : Fin 16) :
    ∀ (t fuel n : Nat), t < 0xFFFF → t + 1 ≤ fuel → n + t + 1 < 0xFFFFFC →
      Spu.reloadLoop mem i 0 fuel 0xFFFF t (pcm8Chan n) = (0xFFFF, pcm8Chan (n + t + 1)) := by
  intro t
  induction t with
  | zero =>
    intro fuel n ht hf hn
    obtain ⟨f2, rfl⟩ : ∃ f2, fuel = f2 + 1 := ⟨fuel - 1, by omega⟩
    simp only [Spu.reloadLoop]
    rw [step_pcm8 mem i n (by omega)]
    norm_num
  | succ t ih =>
    intro fuel n ht hf hn
    obtain ⟨f2, rfl⟩ : ∃ f2, fuel = f2 + 1 := ⟨fuel - 1, by omega⟩
    simp only [Spu.reloadLoop]
    rw [step_pcm8 mem i n (by omega)]
    rw [show (t + 1 + 0xFFFF) % 2 ^ 16 = t from by omega]
    rw [if_pos (by omega : t < 0xFFFF)]
    rw [ih f2 (n + 1) (by omega) (by omega) (by omega)]
    rw [show n + 1 + t + 1 = n + (t + 1) + 1 from by omega]

lemma tickChannel_pcm8 (i : Fin 16) (n : Nat) (hn : n + 512 < 0xFFFFFC) :
    (Spu.tickChannel memZ i (pcm8Chan n)).1 = pcm8Chan (n + 512) := by
  unfold Spu.tickChannel
  rw [if_neg (by simp only [pcm8Chan]; decide)]
  dsimp only
  rw [show ((pcm8Chan n).soundTimer + 512) % 2 ^ 16 = 511 from by simp only [pcm8Chan]; decide]
  rw [if_pos (by norm_num : (511 : Nat) < 512)]
  rw [show (pcm8Chan n).soundCnt / 2 ^ 29 % 4 = 0 from by simp only [pcm8Chan]; decide]
  rw [show (pcm8Chan n).soundTmr = 0xFFFF from rfl]
  rw [reloadLoop_pcm8 memZ i 511 (2 ^ 16) n (by norm_num) (by norm_num) (by omega)]
  rw [show n + 511 + 1 = n + 512 from by omega]
  simp [pcm8Chan]

lemma runSample_pcm8 (n : Nat) (hn : n + 512 < 0xFFFFFC) :
    Spu.runSample memZ (pcm8State n) = pcm8State (n + 512) := by
  unfold Spu.runSample
  rw [if_pos (show (pcm8State n).bufferSize = 0 from rfl)]
  have hch : (fun i : Fin 16 => (Spu.tickChannel memZ i ((pcm8State n).chans i)).1)
      = (pcm8State (n + 512)).chans := by
    funext i
    by_cases hi : i.val = 0
    · simp only [pcm8State]
      rw [if_pos hi, if_pos hi]
      exact tickChannel_pcm8 i n hn
    · simp only [pcm8State]
      rw [if_neg hi, if_neg hi]
      rfl
  rw [hch]
  rfl

lemma iterate_pcm8 (k : Nat) (hk : k ≤ 128) :
    (Spu.runSample memZ)^[k] (pcm8State 0) = pcm8State (512 * k) := by
  induction k with
  | zero => rfl
  | succ m ih =>
    rw [Function.iterate_succ_apply', ih (by omega), runSample_pcm8 (512 * m) (by omega)]
    rw [show 512 * m + 512 = 512 * (m + 1) from by ring]

/-- Counterexample to C2 as stated: with reload period 0xFFFF the reload
loop cascades, so after 128 ticks the PCM8 channel's address has advanced
65536 times (512 per tick), not once.  The period between decode-advances
is 65536 - reload timer increments, not 65536 / reload. -/
theorem pcm8_reload_ffff_counterexample :
    (((Spu.runSample memZ)^[128] (pcm8State 0)).chans 0).soundCurrent = 65536 ∧
    ¬ (((Spu.runSample memZ)^[128] (pcm8State 0)).chans 0).soundCurrent
        = ((pcm8State 0).chans 0).soundCurrent + 1 := by
  rw [iterate_pcm8 128 (le_refl 128)]
  constructor <;> decide

/-- Channel 0 set up as the amended C2 scenario: PCM8, enabled, reload
period 0x0000, timer at its reload value 0. -/
def pcm8ZeroState : Spu :=
  { chans := fun i =>
      if i.val = 0 then
        { soundCnt := 0x80000000, soundSad := 0x1000, soundTmr := 0, soundLen := 0x3FFFFF,
          soundCurrent := 0x1000, soundTimer := 0 }
      else {} }

set_option maxRecDepth 40000 in
/-- C2 (amended): with timer reload period 0x0000 on a PCM8 channel (the
per-tick increment being 512), the first 127 ticks produce no
decode-advance and after 128 ticks exactly one address increment has
occurred: one advance every (65536 - reload) / 512 ticks, not 65536/reload. -/
theorem pcm8_reload_zero_one_advance :
    (((Spu.runSample memZ)^[127] pcm8ZeroState).chans 0).soundCurrent = 0x1000 ∧
    (((Spu.runSample memZ)^[128] pcm8ZeroState).chans 0).soundCurrent = 0x1000 + 1 := by
  constructor <;> decide

/-- Modelled from the spec's section 4.2 wording of the ADPCM reload-time
decode: decode the next 4-bit nibble (low nibble first, then high nibble of
the same byte); compute a magnitude from the 89-entry step table as the sum
of table/8, table/4, table/2, table/1 gated by nibble bits 0-2; add or
subtract it from the predictor depending on nibble bit 3, clamping to
[-32767, 32767]; move the step index by the 8-entry table keyed by the low
3 bits, clamped to [0, 88]; toggle the nibble selector, advancing the byte
address only after the high nibble; snapshot predictor and index as the
loop-restore pair when the resulting address equals the loop point with the
selector back at the low nibble. -/
def Spu.adpcmDecodeStepSpec (mem : Nat → Nat) (c : Channel) : Channel :=
  let byte := mread8 mem c.soundCurrent
  let nibble := if c.adpcmToggle = false then byte % 16 else byte / 16
  let tab := Spu.adpcmTable.getD c.adpcmIndex.toNat 0
  let magnitude := tab / 8 + (if nibble.testBit 0 then tab / 4 else 0)
      + (if nibble.testBit 1 then tab / 2 else 0) + (if nibble.testBit 2 then tab / 1 else 0)
  let predictor :=
    if nibble.testBit 3 then min (c.adpcmValue + magnitude) 0x7FFF
    else max (c.adpcmValue - magnitude) (-0x7FFF)
  let index := min (max (c.adpcmIndex + Spu.indexTable.getD (nibble % 8) 0) 0) 88
  let sel := ! c.adpcmToggle
  let addr := if c.adpcmToggle then (c.soundCurrent + 1) % 2 ^ 32 else c.soundCurrent
  let c1 : Channel :=
    { c with adpcmValue := predictor, adpcmIndex := index, adpcmToggle := sel,
             soundCurrent := addr }
  if addr = (c.soundSad + c.soundPnt * 4) % 2 ^ 32 ∧ sel = false then
    { c1 with adpcmLoopValue := predictor, adpcmLoopIndex := index }
  else c1

lemma adpcmDiff_eq_spec (tab d : Nat) :
    Spu.adpcmDiff tab d = tab / 8 + (if d.testBit 0 then tab / 4 else 0)
      + (if d.testBit 1 then tab / 2 else 0) + (if d.testBit 2 then tab / 1 else 0) := by
  simp only [Spu.adpcmDiff, Nat.testBit_to_div_mod, decide_eq_true_eq]
  split_ifs <;> omega

lemma adpcmNewValue_eq_spec (v : Int) (d diff : Nat) :
    Spu.adpcmNewValue v d diff
      = if d.testBit 3 then min (v + diff) 0x7FFF else max (v - diff) (-0x7FFF) := by
  simp only [Spu.adpcmNewValue, Nat.testBit_to_div_mod, decide_eq_true_eq]
  split_ifs <;> omega

lemma adpcmNewIndex_eq_spec (idx : Int) (d : Nat) :
    Spu.adpcmNewIndex idx d = min (max (idx + Spu.indexTable.getD (d % 8) 0) 0) 88 := by
  simp only [Spu.adpcmNewIndex]
  split_ifs <;> omega

/-- C3: the code's ADPCM reload-time decode agrees exactly with the decode
described by the specification, for every memory, channel state and nibble
selector position. -/
theorem adpcm_decode_matches_spec (mem : Nat → Nat) (c : Channel) :
    Spu.adpcmDecodeStep mem c = Spu.adpcmDecodeStepSpec mem c := by
  cases hc : c.adpcmToggle <;>
    simp only [Spu.adpcmDecodeStep, Spu.adpcmDecodeStepSpec, hc, adpcmDiff_eq_spec,
      adpcmNewValue_eq_spec, adpcmNewIndex_eq_spec, Bool.not_false, Bool.not_true] <;>
    norm_num

/-- Frames produced by the first n synthesis ticks from state s. -/
def Spu.framesFrom (mem : Nat → Nat) (s : Spu) (n : Nat) : List Nat :=
  (List.range n).map (fun k => Spu.frameAt mem ((Spu.runSample mem)^[k] s))

lemma framesFrom_length (mem : Nat → Nat) (s : Spu) (n : Nat) :
    (Spu.framesFrom mem s n).length = n := by
  simp [Spu.framesFrom]

lemma framesFrom_succ (mem : Nat → Nat) (s : Spu) (n : Nat) :
    Spu.framesFrom mem s (n + 1)
      = Spu.framesFrom mem s n ++ [Spu.frameAt mem ((Spu.runSample mem)^[n] s)] := by
  simp [Spu.framesFrom, List.range_succ]

lemma set_append_length {α : Type} (l1 l2 : List α) (a : α) :
    (l1 ++ l2).set l1.length a = l1 ++ l2.set 0 a := by
  induction l1 with
  | nil => rfl
  | cons x t ih => simpa using ih

lemma set_frames (mem : Nat → Nat) (s : Spu) (m : Nat) (hm : m < s.bufferIn.length) :
    (Spu.framesFrom mem s m ++ s.bufferIn.drop m).set m
        (Spu.frameAt mem ((Spu.runSample mem)^[m] s))
      = Spu.framesFrom mem s (m + 1) ++ s.bufferIn.drop (m + 1) := by
  have h1 := set_append_length (Spu.framesFrom mem s m) (s.bufferIn.drop m)
    (Spu.frameAt mem ((Spu.runSample mem)^[m] s))
  rw [framesFrom_length] at h1
  rw [h1, List.drop_eq_getElem_cons hm, framesFrom_succ, List.append_assoc]
  rfl

lemma runSample_no_swap (mem : Nat → Nat) (s2 : Spu) (h0 : ¬ s2.bufferSize = 0)
    (h1 : ¬ s2.bufferPointer + 1 = s2.bufferSize) :
    Spu.runSample mem s2
      = { s2 with chans := fun i => (Spu.tickChannel mem i (s2.chans i)).1,
                  bufferIn := s2.bufferIn.set s2.bufferPointer (Spu.frameAt mem s2),
                  bufferPointer := s2.bufferPointer + 1 } := by
  unfold Spu.runSample
  rw [if_neg h0]
  dsimp only
  rw [if_neg h1]

lemma runSample_swap (mem : Nat → Nat) (s2 : Spu) (h0 : ¬ s2.bufferSize = 0)
    (h1 : s2.bufferPointer + 1 = s2.bufferSize) :
    Spu.runSample mem s2
      = { s2 with chans := fun i => (Spu.tickChannel mem i (s2.chans i)).1,
                  bufferIn := s2.bufferOut,
                  bufferOut := s2.bufferIn.set s2.bufferPointer (Spu.frameAt mem s2),
                  ready := true, bufferPointer := 0 } := by
  unfold Spu.runSample
  rw [if_neg h0]
  dsimp only
  rw [if_pos h1]

lemma runSample_fill (mem : Nat → Nat) (s : Spu) (n : Nat) (hlen : s.bufferIn.length = n)
    (hsz : s.bufferSize = n) (hp : s.bufferPointer = 0) :
    ∀ k, k < n →
      ((Spu.runSample mem)^[k] s).bufferSize = n ∧
      ((Spu.runSample mem)^[k] s).bufferPointer = k ∧
      ((Spu.runSample mem)^[k] s).bufferOut = s.bufferOut ∧
      ((Spu.runSample mem)^[k] s).ready = s.ready ∧
      ((Spu.runSample mem)^[k] s).bufferIn = Spu.framesFrom mem s k ++ s.bufferIn.drop k := by
  intro k
  induction k with
  | zero =>
    intro _
    refine ⟨hsz, hp, rfl, rfl, ?_⟩
    simp [Spu.framesFrom]
  | succ m ih =>
    intro hk
    obtain ⟨ih1, ih2, ih3, ih4, ih5⟩ := ih (by omega)
    rw [Function.iterate_succ_apply',
      runSample_no_swap mem _ (by omega) (by omega)]
    refine ⟨ih1, by rw [ih2], ih3, ih4, ?_⟩
    show ((Spu.runSample mem)^[m] s).bufferIn.set ((Spu.runSample mem)^[m] s).bufferPointer
        (Spu.frameAt mem ((Spu.runSample mem)^[m] s))
      = Spu.framesFrom mem s (m + 1) ++ s.bufferIn.drop (m + 1)
    rw [ih2, ih5, set_frames mem s m (by omega)]

/-- C4: starting with an empty in buffer of capacity n, n producer ticks
fill it with the n frames produced (each packed by packFrame as
(right << 16) | (left & 0xFFFF)), swap the buffers and raise the ready
flag, and a getSamples n call that observes the flag returns exactly those
n frames, byte for byte. -/
theorem buffer_roundtrip (mem : Nat → Nat) (s : Spu) (n : Nat) (h0 : 0 < n)
    (hlen : s.bufferIn.length = n) (hsz : s.bufferSize = n) (hp : s.bufferPointer = 0) :
    ((Spu.runSample mem)^[n] s).ready = true ∧
    (Spu.getSamples n ((Spu.runSample mem)^[n] s)).1 = Spu.framesFrom mem s n := by
  obtain ⟨m, rfl⟩ : ∃ m, n = m + 1 := ⟨n - 1, by omega⟩
  obtain ⟨ih1, ih2, ih3, ih4, ih5⟩ := runSample_fill mem s (m + 1) hlen hsz hp m (by omega)
  rw [Function.iterate_succ_apply',
    runSample_swap mem _ (by omega) (by omega)]
  have hout : (((Spu.runSample mem)^[m] s).bufferIn.set
        ((Spu.runSample mem)^[m] s).bufferPointer
        (Spu.frameAt mem ((Spu.runSample mem)^[m] s)))
      = Spu.framesFrom mem s (m + 1) := by
    rw [ih2, ih5, set_frames mem s m (by omega)]
    rw [List.drop_eq_nil_of_le (by omega), List.append_nil]
  constructor
  · rfl
  · unfold Spu.getSamples
    dsimp only
    rw [if_neg (by omega : ¬ ¬ ((Spu.runSample mem)^[m] s).bufferSize = m + 1)]
    rw [if_pos rfl]
    dsimp only
    rw [hout]
    exact List.take_of_length_le (le_of_eq (framesFrom_length mem s (m + 1)))

/-- State used to instantiate the buffer round trip at capacity one. -/
def sC4 : Spu := { chans := fun _ => {}, bufferIn := [0], bufferOut := [0], bufferSize := 1 }

/-- Witness for buffer_roundtrip at the one-frame state sC4. -/
theorem buffer_roundtrip_witness :
    ((Spu.runSample memZ)^[1] sC4).ready = true ∧
    (Spu.getSamples 1 ((Spu.runSample memZ)^[1] sC4)).1 = Spu.framesFrom memZ sC4 1 :=
  buffer_roundtrip memZ sC4 1 (by norm_num) rfl rfl rfl
